import Mathlib

/-!
Shallow embedding of the sandbox lifecycle and execution-orchestration engine
of the MCP Docker executor (files `models.py`, `docker_manager.py`,
`file_manager.py`).

The container engine (docker client) is an external collaborator; it is
modelled as a record of functions (`DockerBehavior`, `PkgBehavior`) describing
the outcome of each engine call: a successful call returns `Except.ok`, a call
that raises returns `Except.error` with the exception message.  Python `str`
values are Lean `String`s, python floats used by the code (cpu share, elapsed
time) are rationals, `time.time()` truncated to an int is an explicit `Nat`
parameter `now`/`ts`, and a Python `dict` keyed by strings is an association
list with overwrite-on-insert semantics (`dictSet`/`dictGet`/`dictDel`).
-/

namespace MCP

/-- Decimal digit character, as produced by Python str-formatting of an int. -/
def digitChar (d : Nat) : Char :=
  match d with
  | 0 => '0'
  | 1 => '1'
  | 2 => '2'
  | 3 => '3'
  | 4 => '4'
  | 5 => '5'
  | 6 => '6'
  | 7 => '7'
  | 8 => '8'
  | _ => '9'

/-- Fuelled most-significant-first decimal printer (the fuel is only there to
make the recursion structural; `natDecimalChars` always supplies enough). -/
def natDecimalCore : Nat → Nat → List Char → List Char
  | 0, _, acc => acc
  | fuel + 1, n, acc =>
    if n < 10 then digitChar (n % 10) :: acc
    else natDecimalCore fuel (n / 10) (digitChar (n % 10) :: acc)

/-- Decimal digit list of a natural number, most significant digit first. -/
def natDecimalChars (n : Nat) : List Char :=
  natDecimalCore (n + 1) n []

/-- Decimal rendering of a natural number, embedding Python `f"{int(...)}"`. -/
def natDecimal (n : Nat) : String :=
  String.mk (natDecimalChars n)

/-- Value of a decimal digit string (left fold), used to invert `natDecimal`. -/
def decVal (l : List Char) : Nat :=
  l.foldl (fun a c => a * 10 + (c.toNat - 48)) 0

/-- The languages supported by the executor (`models.py`, `Language`). -/
inductive Language
  | python
  | node
  | csharp
  | bash
deriving DecidableEq

/-- Execution status values (`models.py`, `ExecutionStatus`). -/
inductive ExecutionStatus
  | pending
  | running
  | completed
  | failed
  | timeout
deriving DecidableEq

/-- Resource limits for container execution (`models.py`, `ResourceLimits`). -/
structure ResourceLimits where
  memory_mb : Int := 512
  cpu_cores : ℚ := 1
  timeout_seconds : Int := 300
  network_enabled : Bool := false
deriving DecidableEq

/-- Pydantic construction of `ResourceLimits`: the `Field(ge=..., le=...)`
bounds of `models.py` lines 41-44 are checked when the model is constructed;
an out-of-range field makes construction fail (`none`). -/
def mkResourceLimits (m : Int) (c : ℚ) (t : Int) (net : Bool) :
    Option ResourceLimits :=
  if 64 ≤ m ∧ m ≤ 8192 ∧ (1 / 10 : ℚ) ≤ c ∧ c ≤ 8 ∧ 10 ≤ t ∧ t ≤ 3600 then
    some { memory_mb := m, cpu_cores := c, timeout_seconds := t, network_enabled := net }
  else
    none

/-- Request to execute code (`models.py`, `ExecuteCodeRequest`). -/
structure ExecuteCodeRequest where
  language : Language
  code : String
  image_id : Option String := none
  working_directory : String := "/workspace"
  environment_variables : List (String × String) := []
  resource_limits : ResourceLimits := {}
  input_data : Option String := none
deriving DecidableEq

/-- Response from code execution (`models.py`, `ExecuteCodeResponse`). -/
structure ExecuteCodeResponse where
  execution_id : String
  status : ExecutionStatus
  stdout : Option String := none
  stderr : Option String := none
  exit_code : Option Int := none
  error_message : Option String := none
  execution_time_seconds : Option ℚ := none
deriving DecidableEq

/-- Request to create an image (`models.py`, `CreateImageRequest`). -/
structure CreateImageRequest where
  languages : List Language
  requirements : List (String × String) := []
  image_name : Option String := none
  custom_dockerfile : Option String := none
  base_os : String := "ubuntu:22.04"
deriving DecidableEq

/-- Response from image creation (`models.py`, `CreateImageResponse`). -/
structure CreateImageResponse where
  success : Bool
  image_id : Option String := none
  image_name : Option String := none
  build_logs : List String := []
  error_message : Option String := none
deriving DecidableEq

/-- Request to install a package (`models.py`, `InstallPackageRequest`). -/
structure InstallPackageRequest where
  image_id : String
  language : Language
  package_name : String
  build_new_image : Bool := true
  package_version : Option String := none
deriving DecidableEq

/-- Response from package installation (`models.py`, `InstallPackageResponse`). -/
structure InstallPackageResponse where
  success : Bool
  new_image_id : Option String := none
  build_logs : List String := []
  error_message : Option String := none
deriving DecidableEq

/-- Request for a streaming execution (`models.py`, `StreamExecutionRequest`). -/
structure StreamExecutionRequest where
  language : Language
  code : String
  image_id : Option String := none
  working_directory : String := "/workspace"
  environment_variables : List (String × String) := []
  resource_limits : ResourceLimits := {}
deriving DecidableEq

/-- Request to execute an uploaded file (`models.py`, `FileExecutionRequest`). -/
structure FileExecutionRequest where
  file_id : String
  container_id : Option String := none
  image_id : Option String := none
  working_directory : String := "/workspace"
  environment_variables : List (String × String) := []
  resource_limits : ResourceLimits := {}
  input_data : Option String := none
deriving DecidableEq

/-- Base64 alphabet. -/
def base64Table : List Char :=
  "ABCDEFGHIJKLMNOPQRSTUVWXYZabcdefghijklmnopqrstuvwxyz0123456789+/".data

/-- Character of the base64 alphabet at a 6-bit index. -/
def b64At (i : Nat) : Char :=
  base64Table.getD i 'A'

/-- Standard base64 of a byte list (three bytes to four characters, with
trailing padding), embedding Python `base64.b64encode`. -/
def base64EncodeList : List Nat → List Char
  | [] => []
  | [a] =>
    [b64At (a / 4), b64At (a % 4 * 16), '=', '=']
  | [a, b] =>
    [b64At (a / 4), b64At (a % 4 * 16 + b / 16), b64At (b % 16 * 4), '=']
  | a :: b :: c :: rest =>
    b64At (a / 4) :: b64At (a % 4 * 16 + b / 16) ::
      b64At (b % 16 * 4 + c / 64) :: b64At (c % 64) :: base64EncodeList rest

/-- Base64 of the UTF-8 encoding of a string: the transport-safe encoding the
command synthesizer applies to user source code
(`base64.b64encode(request.code.encode()).decode()`). -/
def b64encode (s : String) : String :=
  String.mk (base64EncodeList (s.toUTF8.toList.map (fun b => b.toNat)))

/-- Timestamped transient file used by the python branch of the command
synthesizer (`docker_manager.py` lines 264-266). -/
def pythonTempFile (ts : Nat) : String :=
  "/tmp/exec_" ++ natDecimal ts ++ ".py"

/-- Timestamped transient file used by the node branch (lines 274-275). -/
def nodeTempFile (ts : Nat) : String :=
  "/tmp/exec_" ++ natDecimal ts ++ ".js"

/-- Timestamped transient directory used by the csharp branch (lines 282-290). -/
def csharpTempDir (ts : Nat) : String :=
  "/tmp/csharp_exec_" ++ natDecimal ts

/-- The transient temp file (python/node) or temp directory (csharp) named in
the synthesized command; bash runs the source directly and has none. -/
def tempName (lang : Language) (ts : Nat) : Option String :=
  match lang with
  | Language.python => some (pythonTempFile ts)
  | Language.node => some (nodeTempFile ts)
  | Language.csharp => some (csharpTempDir ts)
  | Language.bash => none

/-- Command synthesizer (`DockerManager._prepare_code_execution`, lines
257-299).  `ts` is `int(time.time())` observed during the invocation (the
csharp branch calls `int(time.time())` several times inside one f-string; they
are modelled as the same second).  The second component of the result is the
`temp_file` value of the source, which is `None` on every branch. -/
def prepare_code_execution (req : ExecuteCodeRequest) (ts : Nat) :
    String × Option String :=
  match req.language with
  | Language.python =>
    ("echo '" ++ b64encode req.code ++ "' | base64 -d > " ++ pythonTempFile ts ++
       " && python3 " ++ pythonTempFile ts ++ " && rm " ++ pythonTempFile ts, none)
  | Language.node =>
    ("echo '" ++ b64encode req.code ++ "' | base64 -d > " ++ nodeTempFile ts ++
       " && node " ++ nodeTempFile ts ++ " && rm " ++ nodeTempFile ts, none)
  | Language.csharp =>
    ("mkdir -p " ++ csharpTempDir ts ++ " && \\\n" ++
       "cd " ++ csharpTempDir ts ++ " && \\\n" ++
       "echo '" ++ b64encode req.code ++ "' | base64 -d > Program.cs && \\\n" ++
       "dotnet new console --force && \\\n" ++
       "cp Program.cs Program.cs.bak && \\\n" ++
       "echo '" ++ b64encode req.code ++ "' | base64 -d > Program.cs && \\\n" ++
       "dotnet run && \\\n" ++
       "cd / && \\\n" ++
       "rm -rf " ++ csharpTempDir ts, none)
  | Language.bash =>
    (req.code, none)

/-- Lookup in a string-keyed association list (Python `dict` read). -/
def dictGet {α : Type} : List (String × α) → String → Option α
  | [], _ => none
  | (k, v) :: rest, key => if k = key then some v else dictGet rest key

/-- Overwrite-or-append insertion (Python `d[key] = v`). -/
def dictSet {α : Type} : List (String × α) → String → α → List (String × α)
  | [], key, v => [(key, v)]
  | (k, w) :: rest, key, v =>
    if k = key then (key, v) :: rest else (k, w) :: dictSet rest key v

/-- Key removal (Python `del d[key]`). -/
def dictDel {α : Type} (l : List (String × α)) (key : String) :
    List (String × α) :=
  l.filter (fun p => p.1 != key)

/-- A container reference handed back by `containers.create`; docker-py
exposes `container.id` which may be `None`. -/
structure Container where
  id : Option String
deriving DecidableEq

/-- Result of `container.exec_run`: an exit code and the (possibly absent)
captured output bytes, modelled decoded. -/
structure ExecResult where
  exit_code : Int
  output : Option String
deriving DecidableEq

/-- The arguments `execute_code` passes to `containers.create`
(`docker_manager.py` lines 203-219). -/
structure CreateArgs where
  image : String
  environment : List (String × String)
  working_dir : String
  mem_limit : String
  cpu_quota : Int
  cpu_period : Int
  network_disabled : Bool
  detach : Bool
  stdin_open : Bool
  tty : Bool
  user : String
deriving DecidableEq

/-- Outcomes of the container-engine calls made by one `execute_code` run.
`Except.error e` means the docker-py call raised with message `e`. -/
structure DockerBehavior where
  create : CreateArgs → Except String Container
  start : Container → Except String Unit
  execRun : Container → String → Except String ExecResult
  stop : Container → Except String Unit
  remove : Container → Except String Unit

/-- Python `int()` on a rational: truncation toward zero. -/
def pyTrunc (q : ℚ) : Int :=
  if 0 ≤ q then Int.floor q else Int.ceil q

/-- The merged environment `{"PYTHONUNBUFFERED": "1", "NODE_ENV":
"development", **request.environment_variables}`: request-supplied values
override the baseline pairs. -/
def mergeEnv (reqEnv : List (String × String)) : List (String × String) :=
  reqEnv.foldl (fun acc p => dictSet acc p.1 p.2)
    [("PYTHONUNBUFFERED", "1"), ("NODE_ENV", "development")]

/-- The `containers.create` keyword arguments built from the request
(`docker_manager.py` lines 203-219).  `request.image_id or
"mcp-executor-test:latest"` treats `None` and the empty string as absent;
`network_disabled=False` is hard-coded in the source. -/
def mkCreateArgs (req : ExecuteCodeRequest) : CreateArgs :=
  { image :=
      match req.image_id with
      | some i => if i = "" then "mcp-executor-test:latest" else i
      | none => "mcp-executor-test:latest"
    environment := mergeEnv req.environment_variables
    working_dir := req.working_directory
    mem_limit := toString req.resource_limits.memory_mb ++ "m"
    cpu_quota := pyTrunc (req.resource_limits.cpu_cores * 100000)
    cpu_period := 100000
    network_disabled := false
    detach := true
    stdin_open := true
    tty := true
    user := "root" }

/-- The execution identifier `f"exec_{int(time.time())}_{container_id}"`,
where `container_id` is `container.id[:8] if container.id else "unknown"`
(both `None` and the empty id are falsy). -/
def execId (now : Nat) (c : Container) : String :=
  let cid :=
    match c.id with
    | some i => if i = "" then "unknown" else i.take 8
    | none => "unknown"
  "exec_" ++ natDecimal now ++ "_" ++ cid

/-- The failed response built by the `except` clause of `execute_code`
(lines 249-255). -/
def errorResponse (now : Nat) (msg : String) : ExecuteCodeResponse :=
  { execution_id := "exec_" ++ natDecimal now ++ "_error"
    status := ExecutionStatus.failed
    error_message := some msg }

/-- The mutable registry of active containers
(`DockerManager.active_containers`). -/
structure ExecState where
  active_containers : List (String × Container)
deriving DecidableEq

/-- `DockerManager.execute_code` (lines 196-255).  The body is one big
`try`/`except Exception`: the first engine call that raises short-circuits to
`errorResponse`.  Note the source's cleanup (`container.stop()`,
`container.remove()`, `del self.active_containers[execution_id]`) is inline on
the success path, not in a `finally` block, so a fault after the registry
insertion returns with the entry still present. -/
def execute_code (beh : DockerBehavior) (now : Nat) (req : ExecuteCodeRequest)
    (s : ExecState) : ExecuteCodeResponse × ExecState :=
  let command := (prepare_code_execution req now).1
  match beh.create (mkCreateArgs req) with
  | Except.error e => (errorResponse now e, s)
  | Except.ok container =>
    let eid := execId now container
    let s1 : ExecState := ⟨dictSet s.active_containers eid container⟩
    match beh.start container with
    | Except.error e => (errorResponse now e, s1)
    | Except.ok _ =>
      match beh.execRun container command with
      | Except.error e => (errorResponse now e, s1)
      | Except.ok result =>
        match beh.stop container with
        | Except.error e => (errorResponse now e, s1)
        | Except.ok _ =>
          match beh.remove container with
          | Except.error e => (errorResponse now e, s1)
          | Except.ok _ =>
            let s2 : ExecState := ⟨dictDel s1.active_containers eid⟩
            let stdout :=
              match result.output with
              | some o => o
              | none => ""
            ({ execution_id := eid
               status :=
                 if result.exit_code = 0 then ExecutionStatus.completed
                 else ExecutionStatus.failed
               stdout := some stdout
               stderr := some ("")
               exit_code := some result.exit_code
               execution_time_seconds := some 0 }, s2)

/-- What the File Store resolves a file id to: the metadata fields
`execute_uploaded_file` actually reads (`file_manager.get_file`). -/
structure FileInfo where
  language : Language
  content : String
deriving DecidableEq

/-- `DockerManager.execute_uploaded_file` (lines 318-339): look the file id up
in the File Store; a miss returns a failed record with "File not found",
otherwise an `ExecuteCodeRequest` is built from the stored language/content
plus the caller's parameters and handed to `execute_code`. -/
def execute_uploaded_file (beh : DockerBehavior)
    (store : String → Option FileInfo) (now : Nat) (req : FileExecutionRequest)
    (s : ExecState) : ExecuteCodeResponse × ExecState :=
  match store req.file_id with
  | none =>
    ({ execution_id := "exec_" ++ natDecimal now ++ "_error"
       status := ExecutionStatus.failed
       error_message := some ("File not found") }, s)
  | some fi =>
    execute_code beh now
      { language := fi.language
        code := fi.content
        image_id := req.image_id
        working_directory := req.working_directory
        environment_variables := req.environment_variables
        resource_limits := req.resource_limits
        input_data := req.input_data } s

/-- An image handle returned by the container engine. -/
structure Image where
  id : String
deriving DecidableEq

/-- `DockerManager._generate_dockerfile` (lines 123-194): base OS directive,
cache-busting markers, system dependencies, per-language toolchain blocks for
node and csharp, then workspace scaffolding.  `now` is `int(time.time())`. -/
def generate_dockerfile (req : CreateImageRequest) (now : Nat) : String :=
  let baseLines : List String :=
    ["FROM " ++ req.base_os,
     "",
     "# Cache busting",
     "RUN echo 'Cache bust: " ++ natDecimal now ++ "' > /tmp/cache_bust.txt",
     "RUN echo 'Build time: " ++ natDecimal now ++ "' > /tmp/build_time.txt",
     ""]
  let sysLines : List String :=
    ["# Install system dependencies",
     "RUN apt-get update && apt-get install -y \\",
     "    curl \\",
     "    git \\",
     "    build-essential \\",
     "    wget \\",
     "    gnupg \\",
     "    libicu-dev \\",
     "    libssl-dev \\",
     "    && rm -rf /var/lib/apt/lists/*",
     ""]
  let nodeLines : List String :=
    if Language.node ∈ req.languages then
      ["# Install Node.js",
       "RUN curl -fsSL https://deb.nodesource.com/setup_22.x | bash - \\",
       "    && apt-get install -y nodejs \\",
       "    && node --version \\",
       "    && npm --version",
       ""]
    else []
  let csharpLines : List String :=
    if Language.csharp ∈ req.languages then
      ["# Install .NET SDK",
       "RUN wget https://packages.microsoft.com/config/ubuntu/22.04/\\",
       "    packages-microsoft-prod.deb \\",
       "    -O packages-microsoft-prod.deb && \\",
       "    dpkg -i packages-microsoft-prod.deb && \\",
       "    rm packages-microsoft-prod.deb && \\",
       "    apt-get update && \\",
       "    apt-get install -y dotnet-sdk-8.0 && \\",
       "    dotnet --version",
       ""]
    else []
  let tailLines : List String :=
    ["# Create workspace and user",
     "RUN useradd -ms /bin/bash sandboxuser",
     "RUN mkdir -p /workspace && chown sandboxuser:sandboxuser /workspace",
     "USER sandboxuser",
     "WORKDIR /workspace",
     "",
     "# Default command",
     "CMD [\"/bin/bash\"]"]
  String.intercalate ("\n")
    (baseLines ++ sysLines ++ nodeLines ++ csharpLines ++ tailLines)

/-- The build-description selection of `DockerManager.create_image` (lines
67-79): the project's own Dockerfile (modelled as `projectDockerfile`, the
content of `./Dockerfile` when that file exists in the deployment) always
wins; otherwise a truthy `custom_dockerfile` (non-`None`, non-empty) is used;
otherwise the Dockerfile is generated from the requested languages. -/
def chooseDockerfile (projectDockerfile : Option String)
    (req : CreateImageRequest) (now : Nat) : String :=
  match projectDockerfile with
  | some content => content
  | none =>
    match req.custom_dockerfile with
    | some c => if c = "" then generate_dockerfile req now else c
    | none => generate_dockerfile req now

/-- `DockerManager.create_image` (lines 64-121): pick the build description,
pick the image name (`request.image_name or f"mcp-executor-{int(time.time())}"`),
and delegate to `images.build`; a build fault becomes a failed response with
"Build failed: ...". -/
def create_image (projectDockerfile : Option String)
    (build : String → String → Except String (Image × List String))
    (now : Nat) (req : CreateImageRequest) : CreateImageResponse :=
  let dockerfile_content := chooseDockerfile projectDockerfile req now
  let image_name :=
    match req.image_name with
    | some n => if n = "" then "mcp-executor-" ++ natDecimal now else n
    | none => "mcp-executor-" ++ natDecimal now
  match build dockerfile_content (image_name ++ ":latest") with
  | Except.ok (image, logs) =>
    { success := true
      image_id := some image.id
      image_name := some image_name
      build_logs := logs }
  | Except.error e =>
    { success := false
      error_message := some ("Build failed: " ++ e)
      build_logs := [] }

/-- Outcome of `images.get`: docker-py raises `ImageNotFound` for a missing
handle; any other exception is a generic fault. -/
inductive ImgGetErr
  | notFound
  | fault (msg : String)
deriving DecidableEq

/-- The container-engine capabilities the package installer consumes. -/
structure PkgBehavior where
  imagesGet : String → Except ImgGetErr Image
  imagesBuild : String → String → Except String (Image × List String)
  containersList : String → List Container
  containerExecRun : Container → List String → Bool → Except String ExecResult

/-- Package specification string: `f"{name}=={version}"` when a version is
pinned, else the bare name. -/
def packageSpec (name : String) (version : Option String) : String :=
  match version with
  | some v => name ++ "==" ++ v
  | none => name

/-- `DockerManager._get_package_install_command` (lines 474-491). -/
def get_package_install_command (lang : Language) (name : String)
    (version : Option String) : String :=
  let spec := packageSpec name version
  match lang with
  | Language.python => "RUN pip install " ++ spec
  | Language.node => "RUN npm install -g " ++ spec
  | Language.csharp =>
    "RUN mkdir -p /workspace && cd /workspace && \\\n" ++
      "dotnet new console --force && \\\n" ++
      "dotnet add package " ++ spec
  | Language.bash => "RUN apt-get update && apt-get install -y " ++ spec

/-- One character of the tag sanitizer: `re.sub(r"[^a-zA-Z0-9-]", "-", ...)`. -/
def sanitizeChar (ch : Char) : Char :=
  if ch.isAlpha ∨ ch.isDigit ∨ ch = '-' then ch else '-'

/-- Collapse runs of dashes: `re.sub(r"-+", "-", ...)`. -/
def collapseDashes : List Char → List Char
  | [] => []
  | [a] => [a]
  | a :: b :: rest =>
    if a = '-' ∧ b = '-' then collapseDashes (b :: rest)
    else a :: collapseDashes (b :: rest)

/-- Strip leading and trailing dashes: Python `.strip("-")`. -/
def stripDashes (l : List Char) : List Char :=
  ((l.dropWhile (fun c => c == '-')).reverse.dropWhile (fun c => c == '-')).reverse

/-- The tag sanitizer of `_build_image_with_package` (lines 383-384):
non-alphanumeric characters become dashes, lowercase, dash runs collapsed,
ends stripped. -/
def sanitizePackageName (name : String) : String :=
  String.mk (stripDashes (collapseDashes ((name.data.map sanitizeChar).map Char.toLower)))

/-- `DockerManager._build_image_with_package` (lines 357-410): resolve the
source image (fail fast with "Base image not found: ..." when `images.get`
raises `ImageNotFound`), layer the language's install command over it, and
build the layered description under a sanitized, time-suffixed tag. -/
def build_image_with_package (beh : PkgBehavior) (now : Nat)
    (req : InstallPackageRequest) : InstallPackageResponse :=
  match beh.imagesGet req.image_id with
  | Except.error ImgGetErr.notFound =>
    { success := false
      error_message := some ("Base image not found: " ++ req.image_id) }
  | Except.error (ImgGetErr.fault m) =>
    { success := false
      error_message := some ("Build failed: " ++ m) }
  | Except.ok _ =>
    let install_command :=
      get_package_install_command req.language req.package_name req.package_version
    let dockerfile_content :=
      "\nFROM " ++ req.image_id ++ "\nUSER root\n" ++ install_command ++
        "\nUSER sandboxuser\n"
    let new_image_name :=
      "mcp-executor-with-" ++ sanitizePackageName req.package_name ++ "-" ++
        natDecimal now
    match beh.imagesBuild dockerfile_content (new_image_name ++ ":latest") with
    | Except.error m =>
      { success := false, error_message := some ("Build failed: " ++ m) }
    | Except.ok (image, logs) =>
      { success := true, new_image_id := some image.id, build_logs := logs }

/-- `DockerManager._install_package_in_container` (lines 412-472): in-place
strategy against the first running container whose ancestor matches. -/
def install_package_in_container_op (beh : PkgBehavior)
    (req : InstallPackageRequest) : InstallPackageResponse :=
  match beh.containersList req.image_id with
  | [] =>
    { success := false
      error_message := some ("No running containers found for the specified image") }
  | container :: _ =>
    let spec := packageSpec req.package_name req.package_version
    let cmd : List String :=
      match req.language with
      | Language.python => ["pip", "install", spec]
      | Language.node => ["npm", "install", "-g", spec]
      | Language.csharp =>
        ["bash", "-c",
         "mkdir -p /workspace && cd /workspace && " ++
           "dotnet new console --force && dotnet add package " ++ spec]
      | Language.bash =>
        ["bash", "-c", "apt-get update && apt-get install -y " ++ spec]
    let asRoot := req.language = Language.node ∨ req.language = Language.csharp
    match beh.containerExecRun container cmd (decide asRoot) with
    | Except.error e =>
      { success := false
        error_message := some ("Package installation failed: " ++ e) }
    | Except.ok r =>
      if r.exit_code = 0 then
        { success := true
          build_logs :=
            [match r.output with
             | some o => o
             | none => "Package installed successfully"] }
      else
        { success := false
          error_message :=
            some ("Package installation failed: " ++
              match r.output with
              | some o => o
              | none => "Unknown error") }

/-- `DockerManager.install_package` (lines 346-355): the build-new-image flag
selects between the rebuild strategy and the in-place strategy. -/
def install_package (beh : PkgBehavior) (now : Nat)
    (req : InstallPackageRequest) : InstallPackageResponse :=
  if req.build_new_image then build_image_with_package beh now req
  else install_package_in_container_op beh req

/-- One tracked streaming execution
(`DockerManager.streaming_executions[execution_id]`): the metadata dict
written by `start_streaming_execution` and mutated by
`_monitor_streaming_execution`.  The stored `task` handle is opaque and
omitted. -/
structure StreamRecord where
  request : StreamExecutionRequest
  status : String
  start_time : Nat
  logs : List String
  response : Option ExecuteCodeResponse := none
  end_time : Option Nat := none
  error : Option String := none
deriving DecidableEq

/-- The whole mutable state of a `DockerManager`. -/
structure ManagerState where
  active_containers : List (String × Container) := []
  streaming_executions : List (String × StreamRecord) := []
deriving DecidableEq

/-- The `ExecuteCodeRequest` view of a `StreamExecutionRequest`: the source
passes the stream request object straight into `execute_code` (duck typing);
`execute_code` never reads `input_data`, the only field the stream request
lacks. -/
def StreamExecutionRequest.toExecuteCodeRequest (r : StreamExecutionRequest) :
    ExecuteCodeRequest :=
  { language := r.language
    code := r.code
    image_id := r.image_id
    working_directory := r.working_directory
    environment_variables := r.environment_variables
    resource_limits := r.resource_limits
    input_data := none }

/-- `DockerManager.start_streaming_execution` (lines 546-566): insert the
tracking record with status "running", the start timestamp and empty logs
(the spawned monitor task itself is not part of the data model). -/
def start_streaming_execution (eid : String) (req : StreamExecutionRequest)
    (now : Nat) (reg : List (String × StreamRecord)) :
    List (String × StreamRecord) :=
  dictSet reg eid
    { request := req, status := "running", start_time := now, logs := [] }

/-- `DockerManager._monitor_streaming_execution` (lines 568-587): run
`execute_code` on the stored request, then mutate the same record to its
terminal status together with the captured response and the end timestamp; a
missing record is a no-op. -/
def monitor_streaming_execution (beh : DockerBehavior) (now : Nat)
    (eid : String) (st : ManagerState) : ManagerState :=
  match dictGet st.streaming_executions eid with
  | none => st
  | some data =>
    let out := execute_code beh now data.request.toExecuteCodeRequest
      ⟨st.active_containers⟩
    let updated :=
      { data with
        status :=
          if out.1.status = ExecutionStatus.completed then "completed"
          else "failed"
        response := some out.1
        end_time := some now }
    { active_containers := out.2.active_containers
      streaming_executions := dictSet st.streaming_executions eid updated }

/-- The uniqueness property the specification asserts of the command
synthesizer's transient names: any two distinct invocations — two pairs of
(source code, observed whole-second timestamp) that are not the same pair,
as happens under concurrent execution — get different temp file/dir names,
for every language that uses a temp name (all but bash). -/
def TempNamesUniquePerInvocation : Prop :=
  ∀ (lang : Language) (c₁ c₂ : String) (t₁ t₂ : Nat),
    lang ≠ Language.bash → (c₁, t₁) ≠ (c₂, t₂) →
    tempName lang t₁ ≠ tempName lang t₂

/-- The network-policy property the specification asserts of container
creation: the created container's network is enabled (i.e. the
`network_disabled` argument is false) iff the request's
`resource_limits.network_enabled` flag is true. -/
def NetworkPolicyFollowsRequest : Prop :=
  ∀ req : ExecuteCodeRequest,
    ((mkCreateArgs req).network_disabled = false ↔
      req.resource_limits.network_enabled = true)

/-- A concrete container reference used to instantiate theorems. -/
def contA : Container := ⟨some ("abcdef123456")⟩

/-- A concrete successful exec result. -/
def okResult : ExecResult := ⟨0, some ("hi")⟩

/-- A docker behavior on which every engine call succeeds. -/
def okBeh : DockerBehavior :=
  ⟨fun _ => Except.ok contA, fun _ => Except.ok (), fun _ _ => Except.ok okResult,
    fun _ => Except.ok (), fun _ => Except.ok ()⟩

/-- A docker behavior on which `exec_run` raises after the container was
created, started, and registered. -/
def execFaultBeh : DockerBehavior :=
  ⟨fun _ => Except.ok contA, fun _ => Except.ok (),
    fun _ _ => Except.error ("exec fault"), fun _ => Except.ok (),
    fun _ => Except.ok ()⟩

/-- A concrete bash execution request (network_enabled is false by default). -/
def reqBash : ExecuteCodeRequest := { language := Language.bash, code := "echo hi" }

/-- A concrete streaming request. -/
def sreqBash : StreamExecutionRequest :=
  { language := Language.bash, code := "echo hi" }

/-- A freshly started tracking record for `sreqBash`. -/
def stRecA : StreamRecord :=
  { request := sreqBash, status := "running", start_time := 1, logs := [] }

/-- A manager state holding one running streaming record under id "e1". -/
def stA : ManagerState :=
  { active_containers := [], streaming_executions := [("e1", stRecA)] }

/-- A file store resolving exactly the id "f1". -/
def storeA : String → Option FileInfo :=
  fun fid => if fid = "f1" then some ⟨Language.bash, "echo up"⟩ else none

/-- A file-execution request for the stored id. -/
def fileReqA : FileExecutionRequest := { file_id := "f1" }

/-- A package-install behavior whose `images.get` raises `ImageNotFound`. -/
def nfPkgBeh : PkgBehavior :=
  ⟨fun _ => Except.error ImgGetErr.notFound, fun _ _ => Except.error ("nobuild"),
    fun _ => [], fun _ _ _ => Except.error ("noexec")⟩

/-- A rebuild-strategy package-install request. -/
def pkgReqA : InstallPackageRequest :=
  { image_id := "img1", language := Language.python, package_name := "requests" }

/-- An image-creation request that carries a custom Dockerfile override. -/
def imgReqA : CreateImageRequest :=
  { languages := [Language.python], custom_dockerfile := some ("FROM custom") }

/-- A decimal digit character decodes back to its digit value. -/
lemma digitChar_val : ∀ d < 10, (digitChar d).toNat - 48 = d := by decide

/-- Folding one more digit multiplies the accumulated value by ten. -/
lemma decVal_append_digit (l : List Char) (c : Char) :
    decVal (l ++ [c]) = decVal l * 10 + (c.toNat - 48) := by
  simp [decVal, List.foldl_append]

/-- The fuelled printer pushes its accumulator through unchanged. -/
lemma natDecimalCore_append (fuel : Nat) : ∀ n acc, n < fuel →
    natDecimalCore fuel n acc = natDecimalCore fuel n [] ++ acc := by
  induction fuel with
  | zero => exact fun n acc h => absurd h (Nat.not_lt_zero n)
  | succ f ih =>
    intro n acc h
    by_cases h10 : n < 10
    · simp [natDecimalCore, h10]
    · have hdiv : n / 10 < f := by
        have h1 : n / 10 < n := Nat.div_lt_self (by omega) (by omega)
        omega
      simp only [natDecimalCore, if_neg h10]
      rw [ih (n / 10) (digitChar (n % 10) :: acc) hdiv,
        ih (n / 10) [digitChar (n % 10)] hdiv]
      simp

/-- With enough fuel, the printed digits decode back to the number. -/
lemma decVal_natDecimalCore (fuel : Nat) : ∀ n, n < fuel →
    decVal (natDecimalCore fuel n []) = n := by
  induction fuel with
  | zero => exact fun n h => absurd h (Nat.not_lt_zero n)
  | succ f ih =>
    intro n h
    by_cases h10 : n < 10
    · simp [natDecimalCore, h10, decVal, Nat.mod_eq_of_lt h10,
        digitChar_val n h10]
    · have hdiv : n / 10 < f := by
        have h1 : n / 10 < n := Nat.div_lt_self (by omega) (by omega)
        omega
      have hv := digitChar_val (n % 10) (Nat.mod_lt n (by omega))
      simp only [natDecimalCore, if_neg h10]
      rw [natDecimalCore_append f (n / 10) _ hdiv, decVal_append_digit,
        ih (n / 10) hdiv, hv]
      omega

/-- Decimal printing of naturals is injective. -/
lemma natDecimalChars_inj {m n : Nat} (h : natDecimalChars m = natDecimalChars n) :
    m = n := by
  have hm := decVal_natDecimalCore (m + 1) m (Nat.lt_succ_self m)
  have hn := decVal_natDecimalCore (n + 1) n (Nat.lt_succ_self n)
  calc m = decVal (natDecimalChars m) := hm.symm
    _ = decVal (natDecimalChars n) := by rw [h]
    _ = n := hn

/-- Injectivity survives fixed prefixes and suffixes around the digits. -/
lemma affix_natDecimal_inj (p q : List Char) {t₁ t₂ : Nat}
    (h : p ++ natDecimalChars t₁ ++ q = p ++ natDecimalChars t₂ ++ q) :
    t₁ = t₂ :=
  natDecimalChars_inj (List.append_cancel_left (List.append_cancel_right h))

/-- The python temp file path determines the timestamp. -/
lemma pythonTempFile_inj {t₁ t₂ : Nat}
    (h : pythonTempFile t₁ = pythonTempFile t₂) : t₁ = t₂ := by
  have h2 := congrArg String.data h
  exact affix_natDecimal_inj ("/tmp/exec_".data) (".py".data) h2

/-- The node temp file path determines the timestamp. -/
lemma nodeTempFile_inj {t₁ t₂ : Nat}
    (h : nodeTempFile t₁ = nodeTempFile t₂) : t₁ = t₂ := by
  have h2 := congrArg String.data h
  exact affix_natDecimal_inj ("/tmp/exec_".data) (".js".data) h2

/-- Injectivity survives a fixed prefix before the digits. -/
lemma prefix_natDecimal_inj (p : List Char) {t₁ t₂ : Nat}
    (h : p ++ natDecimalChars t₁ = p ++ natDecimalChars t₂) : t₁ = t₂ :=
  natDecimalChars_inj (List.append_cancel_left h)

/-- The csharp temp directory path determines the timestamp. -/
lemma csharpTempDir_inj {t₁ t₂ : Nat}
    (h : csharpTempDir t₁ = csharpTempDir t₂) : t₁ = t₂ := by
  have h2 := congrArg String.data h
  exact prefix_natDecimal_inj ("/tmp/csharp_exec_".data) h2

/-- Reading the key just written returns the written value. -/
lemma dictGet_set_self {α : Type} (l : List (String × α)) (k : String) (v : α) :
    dictGet (dictSet l k v) k = some v := by
  induction l with
  | nil => simp [dictGet, dictSet]
  | cons p rest ih =>
    obtain ⟨k1, w⟩ := p
    by_cases h : k1 = k
    · simp [dictSet, dictGet, h]
    · simp [dictSet, dictGet, h, ih]

/-- Writing one key leaves every other key unchanged. -/
lemma dictGet_set_ne {α : Type} (l : List (String × α)) (k k' : String) (v : α)
    (h : k' ≠ k) : dictGet (dictSet l k v) k' = dictGet l k' := by
  induction l with
  | nil => simp [dictGet, dictSet, Ne.symm h]
  | cons p rest ih =>
    obtain ⟨k1, w⟩ := p
    by_cases h1 : k1 = k
    · subst h1
      simp [dictSet, dictGet, Ne.symm h]
    · simp [dictSet, dictGet, h1, ih]

/-- C3: constructing a `ResourceLimits` value succeeds exactly when every
field is inside its declared bounds (64 ≤ memory_mb ≤ 8192,
0.1 ≤ cpu_cores ≤ 8.0, 10 ≤ timeout_seconds ≤ 3600), and a successful
construction stores the given field values unchanged.  This is the fail-fast
construction-time boundary: no container engine capability even appears in
the definition. -/
theorem resource_limits_validation (m : Int) (c : ℚ) (t : Int) (net : Bool) :
    ((mkResourceLimits m c t net).isSome ↔
      (64 ≤ m ∧ m ≤ 8192 ∧ (1 / 10 : ℚ) ≤ c ∧ c ≤ 8 ∧ 10 ≤ t ∧ t ≤ 3600)) ∧
    (∀ r, mkResourceLimits m c t net = some r →
      r.memory_mb = m ∧ r.cpu_cores = c ∧ r.timeout_seconds = t ∧
        r.network_enabled = net) := by
  constructor
  · unfold mkResourceLimits
    split
    · next hcond => exact iff_of_true (by simp) hcond
    · next hcond => exact iff_of_false (by simp) hcond
  · intro r hr
    unfold mkResourceLimits at hr
    split at hr
    · cases hr
      simp
    · cases hr

/-- Witness for C3 at the boundary values: memory 64, cpu 0.1, timeout 10 is
accepted, memory 63 is rejected. -/
theorem resource_limits_validation_witness :
    (mkResourceLimits 64 (1 / 10) 10 false).isSome ∧
    ¬ (mkResourceLimits 63 1 300 false).isSome :=
  ⟨(resource_limits_validation 64 (1 / 10) 10 false).1.mpr (by norm_num),
    fun hs =>
      by simpa using ((resource_limits_validation 63 1 300 false).1.mp hs).1⟩

/-- C4: the build description chosen by `create_image` follows the three-tier
precedence: a present project Dockerfile is used no matter what the caller
supplied; with no project Dockerfile a truthy custom_dockerfile is used; when
neither is present (no custom Dockerfile, or the falsy empty string) the
Dockerfile is generated from the requested languages. -/
theorem create_image_dockerfile_precedence (projectDockerfile : Option String)
    (req : CreateImageRequest) (now : Nat) :
    (∀ p, projectDockerfile = some p →
      chooseDockerfile projectDockerfile req now = p) ∧
    (projectDockerfile = none → ∀ c, req.custom_dockerfile = some c → c ≠ "" →
      chooseDockerfile projectDockerfile req now = c) ∧
    (projectDockerfile = none →
      (req.custom_dockerfile = none ∨ req.custom_dockerfile = some ("")) →
      chooseDockerfile projectDockerfile req now = generate_dockerfile req now) := by
  refine ⟨?_, ?_, ?_⟩
  · rintro p rfl
    rfl
  · rintro rfl c hc hne
    simp [chooseDockerfile, hc, hne]
  · rintro rfl (hc | hc) <;> simp [chooseDockerfile, hc]

/-- Witness for C4: the project Dockerfile wins even though `imgReqA` carries
a custom Dockerfile override. -/
theorem create_image_dockerfile_precedence_witness :
    chooseDockerfile (some ("FROM pinned")) imgReqA 3 = "FROM pinned" :=
  (create_image_dockerfile_precedence (some ("FROM pinned")) imgReqA 3).1
    ("FROM pinned") rfl

/-- C5 counterexample: temp names are not unique per invocation.  Two
distinct invocations (codes "a" and "b") that observe the same whole-second
timestamp get exactly the same python temp file name, so the claimed
uniqueness under concurrency is false of the code. -/
theorem temp_names_not_unique : ¬ TempNamesUniquePerInvocation := by
  intro h
  exact h Language.python "a" "b" 0 0 (by decide) (by decide) rfl

/-- C5 amended: the transient temp name is derived from the invocation's
whole-second timestamp alone, so two invocations of the synthesizer (for
python, node or csharp) receive different temp names precisely when their
timestamps differ; invocations within the same second collide. -/
theorem temp_name_unique_iff_timestamps_differ (lang : Language) (t₁ t₂ : Nat)
    (h : lang ≠ Language.bash) :
    (tempName lang t₁ = tempName lang t₂ ↔ t₁ = t₂) := by
  cases lang with
  | bash => exact absurd rfl h
  | python =>
    constructor
    · intro he
      simp only [tempName, Option.some.injEq] at he
      exact pythonTempFile_inj he
    · rintro rfl
      rfl
  | node =>
    constructor
    · intro he
      simp only [tempName, Option.some.injEq] at he
      exact nodeTempFile_inj he
    · rintro rfl
      rfl
  | csharp =>
    constructor
    · intro he
      simp only [tempName, Option.some.injEq] at he
      exact csharpTempDir_inj he
    · rintro rfl
      rfl

/-- Witness for the amended C5 at timestamps 3 and 4. -/
theorem temp_name_unique_iff_timestamps_differ_witness :
    Language.python ≠ Language.bash ∧
    (tempName Language.python 3 = tempName Language.python 4 ↔ 3 = 4) :=
  ⟨by decide, temp_name_unique_iff_timestamps_differ Language.python 3 4 (by decide)⟩

/-- C6 counterexample: the network policy does not follow the request.
`execute_code` passes `network_disabled=False` to `containers.create`
unconditionally, so for `reqBash` (whose resource limits have
`network_enabled = false`) the container still gets network access, refuting
"network is enabled iff the request's flag is true". -/
theorem network_flag_ignored : ¬ NetworkPolicyFollowsRequest := by
  intro h
  have h2 := (h reqBash).mp rfl
  exact absurd h2 (by decide)

/-- C6 amended: the container is always created with network access enabled;
the request's `resource_limits.network_enabled` flag is ignored by
`execute_code`. -/
theorem network_always_enabled (req : ExecuteCodeRequest) :
    (mkCreateArgs req).network_disabled = false := rfl

/-- C1 (bug evidence): when `exec_run` raises after the container has been
registered, `execute_code` returns a terminal (failed) record but the
`active_containers` registry still holds the entry for this execution's
container — the stop/remove/registry-removal cleanup is inline on the success
path, not in a `finally` block, so it is skipped on the fault path. -/
theorem cleanup_skipped_on_exec_fault :
    (execute_code execFaultBeh 5 reqBash ⟨[]⟩).1.status = ExecutionStatus.failed ∧
    (execute_code execFaultBeh 5 reqBash ⟨[]⟩).1.error_message =
      some ("exec fault") ∧
    (execute_code execFaultBeh 5 reqBash ⟨[]⟩).2.active_containers =
      [("exec_5_abcdef12", contA)] := by
  refine ⟨rfl, rfl, ?_⟩
  decide

/-- C2: `execute_code` always returns a terminal response and maps outcomes
as specified: its status is always completed or failed; when every engine
call succeeds the status is completed for exit code 0 and failed otherwise;
and when any engine call (create, start, exec, stop, remove) raises, the
response has status failed and carries the raised message — the `except`
wrapper means no fault escapes (the model is a total function). -/
theorem execute_code_status_total (beh : DockerBehavior) (now : Nat)
    (req : ExecuteCodeRequest) (s : ExecState) :
    ((execute_code beh now req s).1.status = ExecutionStatus.completed ∨
      (execute_code beh now req s).1.status = ExecutionStatus.failed) ∧
    (∀ c r, beh.create (mkCreateArgs req) = Except.ok c →
      beh.start c = Except.ok () →
      beh.execRun c (prepare_code_execution req now).1 = Except.ok r →
      beh.stop c = Except.ok () → beh.remove c = Except.ok () →
      (execute_code beh now req s).1.status =
        (if r.exit_code = 0 then ExecutionStatus.completed
         else ExecutionStatus.failed)) ∧
    (∀ e, beh.create (mkCreateArgs req) = Except.error e →
      (execute_code beh now req s).1.status = ExecutionStatus.failed ∧
      (execute_code beh now req s).1.error_message = some e) ∧
    (∀ c e, beh.create (mkCreateArgs req) = Except.ok c →
      beh.start c = Except.error e →
      (execute_code beh now req s).1.status = ExecutionStatus.failed ∧
      (execute_code beh now req s).1.error_message = some e) ∧
    (∀ c e, beh.create (mkCreateArgs req) = Except.ok c →
      beh.start c = Except.ok () →
      beh.execRun c (prepare_code_execution req now).1 = Except.error e →
      (execute_code beh now req s).1.status = ExecutionStatus.failed ∧
      (execute_code beh now req s).1.error_message = some e) ∧
    (∀ c r e, beh.create (mkCreateArgs req) = Except.ok c →
      beh.start c = Except.ok () →
      beh.execRun c (prepare_code_execution req now).1 = Except.ok r →
      beh.stop c = Except.error e →
      (execute_code beh now req s).1.status = ExecutionStatus.failed ∧
      (execute_code beh now req s).1.error_message = some e) ∧
    (∀ c r e, beh.create (mkCreateArgs req) = Except.ok c →
      beh.start c = Except.ok () →
      beh.execRun c (prepare_code_execution req now).1 = Except.ok r →
      beh.stop c = Except.ok () → beh.remove c = Except.error e →
      (execute_code beh now req s).1.status = ExecutionStatus.failed ∧
      (execute_code beh now req s).1.error_message = some e) := by
  refine ⟨?_, ?_, ?_, ?_, ?_, ?_, ?_⟩
  · rcases hc : beh.create (mkCreateArgs req) with e | c
    · right
      simp [execute_code, hc, errorResponse]
    · rcases hs : beh.start c with e | u
      · right
        simp [execute_code, hc, hs, errorResponse]
      · cases u
        rcases he : beh.execRun c (prepare_code_execution req now).1 with e | r
        · right
          simp [execute_code, hc, hs, he, errorResponse]
        · rcases hst : beh.stop c with e | u2
          · right
            simp [execute_code, hc, hs, he, hst, errorResponse]
          · cases u2
            rcases hrm : beh.remove c with e | u3
            · right
              simp [execute_code, hc, hs, he, hst, hrm, errorResponse]
            · cases u3
              by_cases hx : r.exit_code = 0
              · left
                simp [execute_code, hc, hs, he, hst, hrm, hx]
              · right
                simp [execute_code, hc, hs, he, hst, hrm, hx]
  · intro c r hc hs he hst hrm
    simp [execute_code, hc, hs, he, hst, hrm]
  · intro e hc
    simp [execute_code, hc, errorResponse]
  · intro c e hc hs
    simp [execute_code, hc, hs, errorResponse]
  · intro c e hc hs he
    simp [execute_code, hc, hs, he, errorResponse]
  · intro c r e hc hs he hst
    simp [execute_code, hc, hs, he, hst, errorResponse]
  · intro c r e hc hs he hst hrm
    simp [execute_code, hc, hs, he, hst, hrm, errorResponse]

/-- Witness for C2 on a behavior where every engine call succeeds with exit
code 0. -/
theorem execute_code_status_total_witness :
    (execute_code okBeh 7 reqBash ⟨[]⟩).1.status =
      (if okResult.exit_code = 0 then ExecutionStatus.completed
       else ExecutionStatus.failed) :=
  (execute_code_status_total okBeh 7 reqBash ⟨[]⟩).2.1 contA okResult
    rfl rfl rfl rfl rfl

/-- C10: whenever `execute_code` reaches the result-parsing step (no engine
call raised), the response reports stderr as the empty string and
execution_time_seconds as exactly 0.0 — both are hard-coded, whatever the
command wrote or however long it ran; on the exception path (error_message
set) both fields are absent. -/
theorem execute_code_stderr_time_fixed (beh : DockerBehavior) (now : Nat)
    (req : ExecuteCodeRequest) (s : ExecState) :
    (∀ c r, beh.create (mkCreateArgs req) = Except.ok c →
      beh.start c = Except.ok () →
      beh.execRun c (prepare_code_execution req now).1 = Except.ok r →
      beh.stop c = Except.ok () → beh.remove c = Except.ok () →
      (execute_code beh now req s).1.stderr = some ("") ∧
      (execute_code beh now req s).1.execution_time_seconds = some 0) ∧
    ((execute_code beh now req s).1.error_message.isSome →
      (execute_code beh now req s).1.stderr = none ∧
      (execute_code beh now req s).1.execution_time_seconds = none) := by
  constructor
  · intro c r hc hs he hst hrm
    simp [execute_code, hc, hs, he, hst, hrm]
  · rcases hc : beh.create (mkCreateArgs req) with e | c
    · simp [execute_code, hc, errorResponse]
    · rcases hs : beh.start c with e | u
      · simp [execute_code, hc, hs, errorResponse]
      · cases u
        rcases he : beh.execRun c (prepare_code_execution req now).1 with e | r
        · simp [execute_code, hc, hs, he, errorResponse]
        · rcases hst : beh.stop c with e | u2
          · simp [execute_code, hc, hs, he, hst, errorResponse]
          · cases u2
            rcases hrm : beh.remove c with e | u3
            · simp [execute_code, hc, hs, he, hst, hrm, errorResponse]
            · cases u3
              simp [execute_code, hc, hs, he, hst, hrm]

/-- Witness for C10 on the all-success behavior. -/
theorem execute_code_stderr_time_fixed_witness :
    (execute_code okBeh 7 reqBash ⟨[]⟩).1.stderr = some ("") ∧
    (execute_code okBeh 7 reqBash ⟨[]⟩).1.execution_time_seconds = some 0 :=
  (execute_code_stderr_time_fixed okBeh 7 reqBash ⟨[]⟩).1 contA okResult
    rfl rfl rfl rfl rfl

/-- C7: `execute_uploaded_file` is the composition of a File Store lookup
with `execute_code`.  When the file id resolves to a stored language/content
pair, the result (response and registry state alike) is exactly that of
calling `execute_code` on that language and content with the caller's image,
working directory, environment, limits and input; when the id does not
resolve, the result is a failed "File not found" record, returned without
consulting the engine (the right-hand side mentions no engine call, for any
behavior). -/
theorem execute_uploaded_file_refines (beh : DockerBehavior)
    (store : String → Option FileInfo) (now : Nat) (req : FileExecutionRequest)
    (s : ExecState) :
    (∀ fi, store req.file_id = some fi →
      execute_uploaded_file beh store now req s =
        execute_code beh now
          { language := fi.language
            code := fi.content
            image_id := req.image_id
            working_directory := req.working_directory
            environment_variables := req.environment_variables
            resource_limits := req.resource_limits
            input_data := req.input_data } s) ∧
    (store req.file_id = none →
      execute_uploaded_file beh store now req s =
        ({ execution_id := "exec_" ++ natDecimal now ++ "_error"
           status := ExecutionStatus.failed
           stdout := none
           stderr := none
           exit_code := none
           error_message := some ("File not found")
           execution_time_seconds := none }, s)) := by
  constructor
  · intro fi hfi
    simp [execute_uploaded_file, hfi]
  · intro hnone
    simp [execute_uploaded_file, hnone]

/-- Witness for C7: executing stored file "f1" equals executing its content
directly. -/
theorem execute_uploaded_file_refines_witness :
    execute_uploaded_file okBeh storeA 9 fileReqA ⟨[]⟩ =
      execute_code okBeh 9
        { language := Language.bash
          code := "echo up"
          image_id := none
          working_directory := "/workspace"
          environment_variables := []
          resource_limits := {}
          input_data := none } ⟨[]⟩ :=
  (execute_uploaded_file_refines okBeh storeA 9 fileReqA ⟨[]⟩).1
    ⟨Language.bash, "echo up"⟩ (by decide)

/-- C8: under the rebuild strategy, when `images.get` reports the source
image missing, `install_package` fails with the distinguishable
"Base image not found: <image>" message and attempts no build: the result is
the explicit not-found record (no build logs, no new image), and it is
unchanged under any replacement of the build capability. -/
theorem install_package_image_not_found (beh : PkgBehavior) (now : Nat)
    (req : InstallPackageRequest) (hflag : req.build_new_image = true)
    (hget : beh.imagesGet req.image_id = Except.error ImgGetErr.notFound) :
    install_package beh now req =
      { success := false
        new_image_id := none
        build_logs := []
        error_message := some ("Base image not found: " ++ req.image_id) } ∧
    (∀ build2, install_package { beh with imagesBuild := build2 } now req =
      install_package beh now req) := by
  constructor
  · simp [install_package, hflag, build_image_with_package, hget]
  · intro build2
    simp [install_package, hflag, build_image_with_package, hget]

/-- Witness for C8 on a behavior whose `images.get` raises `ImageNotFound`. -/
theorem install_package_image_not_found_witness :
    install_package nfPkgBeh 2 pkgReqA =
      { success := false
        new_image_id := none
        build_logs := []
        error_message := some ("Base image not found: img1") } :=
  (install_package_image_not_found nfPkgBeh 2 pkgReqA rfl rfl).1

/-- C9: the tracked streaming state machine.  Starting a streaming execution
inserts its record with status "running", the start timestamp and empty
logs, touching no other key; the monitor, run once in the background for that
id, rewrites the same record to the terminal status determined by the
captured `execute_code` response ("completed" iff the response completed,
else "failed") together with that response and the end timestamp — never
back to "running" — touching no other key; monitoring an untracked id changes
nothing.  Hence no modelled operation moves any record out of a terminal
status: records under other keys are untouched, and the monitored record
only ever becomes terminal. -/
theorem streaming_state_machine (beh : DockerBehavior) (eid : String)
    (req : StreamExecutionRequest) (now now' : Nat)
    (reg : List (String × StreamRecord)) (st : ManagerState) :
    (dictGet (start_streaming_execution eid req now reg) eid =
      some { request := req, status := "running", start_time := now, logs := [] }) ∧
    (∀ k, k ≠ eid →
      dictGet (start_streaming_execution eid req now reg) k = dictGet reg k) ∧
    (∀ d, dictGet st.streaming_executions eid = some d →
      dictGet (monitor_streaming_execution beh now' eid st).streaming_executions
          eid =
        some { d with
          status :=
            if (execute_code beh now' d.request.toExecuteCodeRequest
                  ⟨st.active_containers⟩).1.status = ExecutionStatus.completed
            then "completed" else "failed"
          response := some (execute_code beh now' d.request.toExecuteCodeRequest
            ⟨st.active_containers⟩).1
          end_time := some now' } ∧
      ((if (execute_code beh now' d.request.toExecuteCodeRequest
            ⟨st.active_containers⟩).1.status = ExecutionStatus.completed
        then "completed" else "failed") : String) ≠ "running") ∧
    (∀ k, k ≠ eid →
      dictGet (monitor_streaming_execution beh now' eid st).streaming_executions
          k =
        dictGet st.streaming_executions k) ∧
    (dictGet st.streaming_executions eid = none →
      monitor_streaming_execution beh now' eid st = st) := by
  refine ⟨?_, ?_, ?_, ?_, ?_⟩
  · exact dictGet_set_self reg eid _
  · intro k hk
    exact dictGet_set_ne reg eid k _ hk
  · intro d hd
    constructor
    · simp only [monitor_streaming_execution, hd]
      exact dictGet_set_self st.streaming_executions eid _
    · split <;> decide
  · intro k hk
    rcases hm : dictGet st.streaming_executions eid with _ | d
    · simp [monitor_streaming_execution, hm]
    · simp only [monitor_streaming_execution, hm]
      exact dictGet_set_ne st.streaming_executions eid k _ hk
  · intro hnone
    simp [monitor_streaming_execution, hnone]

/-- Witness for C9 on the concrete state `stA` and the all-success behavior. -/
theorem streaming_state_machine_witness :
    dictGet (start_streaming_execution "e1" sreqBash 1 []) "e1" = some stRecA ∧
    dictGet (monitor_streaming_execution okBeh 2 "e1" stA).streaming_executions
        "e1" =
      some { stRecA with
        status :=
          if (execute_code okBeh 2 sreqBash.toExecuteCodeRequest ⟨[]⟩).1.status =
              ExecutionStatus.completed
          then "completed" else "failed"
        response := some (execute_code okBeh 2 sreqBash.toExecuteCodeRequest
          ⟨[]⟩).1
        end_time := some 2 } :=
  ⟨(streaming_state_machine okBeh "e1" sreqBash 1 2 [] stA).1,
    ((streaming_state_machine okBeh "e1" sreqBash 1 2 [] stA).2.2.1 stRecA
      (by decide)).1⟩

end MCP
